import Mathlib

/-
Verification of the growable-array container `Vector<T, Allocator>` from
customVector.hpp (files src/unnamed/part_001 with README src/unnamed/part_000
and driver src/main.cpp).

The container state is embedded shallowly: the raw fields
`T* data_; size_t size_; size_t capacity_;` become a list of the constructed
element values (whose length is `size_`), a natural-number capacity, and a
Boolean recording whether `data_` is a non-null allocation.  The allocator
`SimpleAllocator<T>` is stateless and always-equal, so it carries no state in
the embedding; its `construct` calls are the points where element
initialization can fail, which is modelled by explicit failure-injection
oracles (`Option Nat` giving the loop index at which `construct` throws, or a
`Bool` for a single construction).  `size_t` values stay far below 2^64 in
every statement here, so they are modelled as `Nat`.
-/

set_option autoImplicit false

namespace CVec

universe u

variable {α : Type}

/-- Abstract state of a `Vector<T, SimpleAllocator<T>>` object.
`elems` is the list of constructed element values `data_[0], …, data_[size_-1]`
in storage order, so `elems.length` is the member `size_`; `cap` is the member
`capacity_`; `storage` is `true` exactly when `data_` holds a non-null
allocation. -/
structure Vector (α : Type) where
  elems : List α
  cap : Nat
  storage : Bool
deriving Repr, DecidableEq

/-- Member `size()`: returns `size_`. -/
def size (v : Vector α) : Nat := v.elems.length

/-- Member `capacity()`: returns `capacity_`. -/
def capacity (v : Vector α) : Nat := v.cap

/-- Member `empty()`: `size_ == 0`. -/
def emptyQ (v : Vector α) : Bool := size v == 0

/-- The default constructor `Vector()`: `data_(nullptr), size_(0), capacity_(0)`. -/
def mkEmpty : Vector α := { elems := [], cap := 0, storage := false }

/-- The element-construction loop
`for (size_t i = 0; i < n; ++i) construct(alloc_, dst + i, src[i])`, running
over the source values `src` with loop counter starting at `i`.  The oracle
`failAt` names the loop index whose `construct` call throws (if any within
range).  On success it returns the list of values now constructed in the
destination storage; on failure it returns `.error c` where `c` is the value
of the `constructed` counter, i.e. how many elements were fully constructed
before the throw. -/
def constructFrom : List α → Nat → Option Nat → Except Nat (List α)
  | [], _, _ => .ok []
  | x :: rest, i, failAt =>
    if failAt = some i then
      .error 0
    else
      match constructFrom rest (i + 1) failAt with
      | .error c => .error (c + 1)
      | .ok tail => .ok (x :: tail)

/-- Outcome of the `catch` block of `reserve_more`: the exception propagates
with the container fields untouched (`state`), after the rollback destroyed
the `destroyedNew` elements already constructed in the new storage and
deallocated the new block (`newReleased`). -/
structure GrowFailure (α : Type) where
  state : Vector α
  destroyedNew : Nat
  newReleased : Bool
deriving Repr, DecidableEq

/-- Private member `reserve_more(new_capacity)`: allocate `new_capacity` slots,
move/copy-construct each of the `size_` elements into them
(`std::move_if_noexcept` preserves the values either way), then destroy the old
elements, deallocate the old block and adopt the new block and capacity.
If a `construct` call throws (oracle `failAt`), the `catch` block destroys
exactly the `constructed` elements already placed in the new storage,
deallocates the new block and rethrows; `data_`, `size_` and `capacity_` were
never assigned, so the container keeps its original fields. -/
def reserve_more (v : Vector α) (new_capacity : Nat) (failAt : Option Nat) :
    Except (GrowFailure α) (Vector α) :=
  match constructFrom v.elems 0 failAt with
  | .error constructed =>
      .error { state := { elems := v.elems, cap := v.cap, storage := v.storage },
               destroyedNew := constructed, newReleased := true }
  | .ok new_data =>
      .ok { elems := new_data, cap := new_capacity, storage := true }

/-- The capacity requested by `emplace_back` when full:
`(capacity_ == 0) ? 1 : static_cast<size_t>(capacity_ * 1.5)`.  For the
capacities arising here the `double` product `capacity_ * 1.5` is exact, so the
cast truncates `3·c/2` downward: the result is `c + c / 2` in `Nat`. -/
def newCapacity (c : Nat) : Nat := if c = 0 then 1 else c + c / 2

/-- Member `emplace_back(args...)`: if `size_ == capacity_`, call
`reserve_more(newCapacity capacity_)`; then `construct(alloc_, data_ + size_,
args...)` and `++size_`.  `failAt` is the failure oracle handed to the transfer
loop of `reserve_more`; `ctorFail` injects a throw into the final `construct`
of the new trailing element.  On an error the payload is the container state
at the moment the exception escapes: if growth already happened, `data_` and
`capacity_` have been updated, but `size_` has not. -/
def emplace_back (v : Vector α) (x : α) (failAt : Option Nat) (ctorFail : Bool) :
    Except (Vector α) (Vector α) :=
  if size v = v.cap then
    match reserve_more v (newCapacity v.cap) failAt with
    | .error f => .error f.state
    | .ok g =>
        if ctorFail then .error g
        else .ok { elems := g.elems ++ [x], cap := g.cap, storage := g.storage }
  else
    if ctorFail then .error v
    else .ok { elems := v.elems ++ [x], cap := v.cap, storage := v.storage }

/-- Member `push_back(value)`: `emplace_back(value)` with no injected failure
(this run of the program throws nowhere, so the result is the success state). -/
def push_back (v : Vector α) (x : α) : Vector α :=
  match emplace_back v x none false with
  | .ok w => w
  | .error w => w

/-- A sequence of `push_back` calls starting from the default-constructed
vector, one per element of `xs` in order. -/
def pushN (xs : List α) : Vector α := xs.foldl push_back mkEmpty

/-- Member `pop_back()`: if `size_ > 0`, `--size_` then destroy the last
element; otherwise do nothing. -/
def pop_back (v : Vector α) : Vector α :=
  if 0 < size v then
    { elems := v.elems.dropLast, cap := v.cap, storage := v.storage }
  else v

/-- Member `clear()`: destroy all `size_` elements and set `size_ = 0`;
`data_` and `capacity_` are kept. -/
def clear (v : Vector α) : Vector α :=
  { elems := [], cap := v.cap, storage := v.storage }

/-- Outcome of the `catch` block of the sized and copy constructors: which
already-constructed element indices the cleanup destroyed (`destroyed`) and
whether it deallocated the block (`released`), before rethrowing.  In the
source each such `catch` block runs only
`AllocTraits::deallocate(alloc_, data_, n); throw;` — there is no destroy
loop — so `destroyed` is always `[]` there. -/
structure CtorFailure where
  destroyed : List Nat
  released : Bool
deriving Repr, DecidableEq

/-- Constructor `Vector(size_t n, const T& value)`: `size_(n), capacity_(n)`;
if `n > 0`, allocate `n` slots and copy-construct each slot from `value`
(the construction loop is `constructFrom` over `n` copies of `value`, with the
oracle `failAt` naming the index whose `construct` throws).  On a throw the
`catch` block deallocates the block — destroying none of the
already-constructed elements — and rethrows. -/
def ctorSizedValue (n : Nat) (value : α) (failAt : Option Nat) :
    Except CtorFailure (Vector α) :=
  if n = 0 then .ok { elems := [], cap := 0, storage := false }
  else
    match constructFrom (List.replicate n value) 0 failAt with
    | .error _constructed => .error { destroyed := [], released := true }
    | .ok elems => .ok { elems := elems, cap := n, storage := true }

/-- Constructor `Vector(size_t n)`: identical to `Vector(n, value)` except that
each slot is default-constructed (`construct(alloc_, data_ + i)` builds `T()`,
modelled as the `default` value). -/
def ctorSized [Inhabited α] (n : Nat) (failAt : Option Nat) :
    Except CtorFailure (Vector α) :=
  ctorSizedValue n (default : α) failAt

/-- Copy constructor `Vector(const Vector& other)`: `size_(other.size_),
capacity_(other.size_)`; if `size_ > 0`, allocate `size_` slots and
copy-construct each from `other.data_[i]`.  The `catch` block again only
deallocates and rethrows. -/
def copyCtor (v : Vector α) (failAt : Option Nat) :
    Except CtorFailure (Vector α) :=
  if size v = 0 then .ok { elems := [], cap := 0, storage := false }
  else
    match constructFrom v.elems 0 failAt with
    | .error _constructed => .error { destroyed := [], released := true }
    | .ok elems => .ok { elems := elems, cap := size v, storage := true }

/-- Move constructor `Vector(Vector&& other)`: steal `other`'s `data_`,
`size_`, `capacity_` and leave `other` with `data_ = nullptr`, `size_ = 0`,
`capacity_ = 0`.  Returns (the new vector, the moved-from source). -/
def moveCtor (v : Vector α) : Vector α × Vector α :=
  ({ elems := v.elems, cap := v.cap, storage := v.storage },
   { elems := [], cap := 0, storage := false })

/-- Copy assignment `operator=(const Vector& other)`: build `Vector tmp(other)`
by the copy constructor, then `std::swap` `data_`, `size_` and `capacity_` with
`tmp` (so the target adopts `tmp`'s fields and `tmp`'s destructor releases the
target's old state).  `propagate_on_container_copy_assignment` is false for
`SimpleAllocator`, and the allocator is stateless, so no allocator state
changes.  If the copy construction throws, the exception escapes before any
swap, leaving the target's fields untouched: the error payload is the target
state at that moment. -/
def copyAssign (target source : Vector α) (failAt : Option Nat) :
    Except (Vector α) (Vector α) :=
  match copyCtor source failAt with
  | .error _ => .error target
  | .ok tmp => .ok tmp

/-- Member `shrink_to_fit()`: if `capacity_ > size_` then either deallocate
and null out the block when `size_ == 0` (capacity becomes 0), or
`reserve_more(size_)`; otherwise do nothing.  `failAt` is the failure oracle
for the transfer loop of `reserve_more`. -/
def shrink_to_fit (v : Vector α) (failAt : Option Nat) :
    Except (GrowFailure α) (Vector α) :=
  if size v < v.cap then
    if size v = 0 then .ok { elems := v.elems, cap := 0, storage := false }
    else reserve_more v (size v) failAt
  else .ok v

/-- Result of a `resize` call on the no-throw run: the new container state
together with how many `destroy` calls and how many element `construct` calls
the body performed. -/
structure ResizeResult (α : Type) where
  state : Vector α
  destroyed : Nat
  constructed : Nat
deriving Repr, DecidableEq

/-- Member `resize(count, value)`: if `count < size_`, destroy the trailing
elements at indices `[count, size_)` and set `size_ = count`; else if
`count > size_`, call `reserve_more(count)` when `count > capacity_`, then
copy-construct `value` into slots `[size_, count)` and set `size_ = count`;
otherwise (`count == size_`) fall through both branches and do nothing.
This models the run in which no construction throws (oracle `none`). -/
def resizeFill (v : Vector α) (count : Nat) (value : α) : ResizeResult α :=
  if count < size v then
    { state := { elems := v.elems.take count, cap := v.cap, storage := v.storage },
      destroyed := size v - count, constructed := 0 }
  else if size v < count then
    match (if v.cap < count then reserve_more v count none else .ok v) with
    | .error f => { state := f.state, destroyed := f.destroyedNew, constructed := 0 }
    | .ok g =>
        { state := { elems := g.elems ++ List.replicate (count - size v) value,
                     cap := g.cap, storage := g.storage },
          destroyed := 0, constructed := count - size v }
  else { state := v, destroyed := 0, constructed := 0 }

/-- Member `resize(count)`: identical to `resize(count, value)` except that the
new trailing slots are default-constructed (`construct(alloc_, data_ + i)`
builds `T()`, modelled as the `default` value). -/
def resize [Inhabited α] (v : Vector α) (count : Nat) : ResizeResult α :=
  resizeFill v count (default : α)

/-- A mutable `Vector::Iterator`: wraps the position pointer `ptr_`, modelled
as the offset of the pointer from `data_`. -/
structure Iterator where
  ptr : Nat
deriving Repr, DecidableEq

/-- A `Vector::ConstIterator`: wraps the position pointer `ptr_`, modelled as
the offset of the pointer from `data_`. -/
structure ConstIterator where
  ptr : Nat
deriving Repr, DecidableEq

/-- Member `begin()`: `Iterator(data_)`. -/
def begin (_v : Vector α) : Iterator := { ptr := 0 }

/-- Member `end()`: `Iterator(data_ + size_)`.  (`end` is a Lean keyword, so
the embedding calls it `endIter`.) -/
def endIter (v : Vector α) : Iterator := { ptr := size v }

/-- Member `cbegin() const`: `ConstIterator(data_)`. -/
def cbegin (_v : Vector α) : ConstIterator := { ptr := 0 }

/-- Member `cend() const`: `ConstIterator(data_)` — note: `data_`, not
`data_ + size_`. -/
def cend (_v : Vector α) : ConstIterator := { ptr := 0 }

/-- Operator `ConstIterator::operator!=(const Iterator& other)`:
`ptr_ != other.ptr_`, pointer inequality. -/
def constNeIter (c : ConstIterator) (i : Iterator) : Bool := c.ptr != i.ptr

/-- The states of `Vector<int>` reachable from the default constructor by the
public mutators used here: `push_back`, `pop_back` and `clear` (each on its
no-throw run). -/
inductive Reachable : Vector Int → Prop where
  | empty : Reachable mkEmpty
  | push {v : Vector Int} (x : Int) : Reachable v → Reachable (push_back v x)
  | pop {v : Vector Int} : Reachable v → Reachable (pop_back v)
  | clears {v : Vector Int} : Reachable v → Reachable (clear v)

/-- With no injected failure the construction loop constructs every source
value, in order. -/
theorem constructFrom_none (xs : List α) (i : Nat) :
    constructFrom xs i none = .ok xs := by
  induction xs generalizing i with
  | nil => rfl
  | cons x rest ih => simp [constructFrom, ih]

/-- If the `construct` call at loop index `i + k` throws while `k` source
values remain ahead of it, the loop fails with exactly `k` elements
constructed. -/
theorem constructFrom_fail (xs : List α) (i k : Nat) (hk : k < xs.length) :
    constructFrom xs i (some (i + k)) = .error k := by
  induction xs generalizing i k with
  | nil => simp at hk
  | cons x rest ih =>
    match k with
    | 0 => simp [constructFrom]
    | j + 1 =>
      have h1 : (some (i + (j + 1)) : Option Nat) ≠ some i := by
        simp only [ne_eq, Option.some.injEq]
        omega
      have h2 : i + (j + 1) = (i + 1) + j := by omega
      have h3 : j < rest.length := by
        simp only [List.length_cons] at hk
        omega
      rw [constructFrom, if_neg (h2 ▸ h1), h2, ih (i + 1) j h3]

/-- `reserve_more` on a run where no transfer throws: the element values are
carried over unchanged and the new capacity is adopted. -/
theorem reserve_more_none (v : Vector α) (n : Nat) :
    reserve_more v n none = .ok { elems := v.elems, cap := n, storage := true } := by
  simp [reserve_more, constructFrom_none]

/-- The code's grown capacity `(capacity_ == 0) ? 1 : (size_t)(capacity_*1.5)`
equals the spec's formula `max(1, floor(capacity * 1.5))`. -/
theorem newCapacity_eq_claim (c : Nat) : newCapacity c = max 1 (3 * c / 2) := by
  unfold newCapacity
  split <;> omega

/-- C1: the claimed invariant `0 ≤ length ≤ capacity` for every reachable state
fails: the state reached from the default constructor by two `push_back`
calls is reachable yet has `capacity_ = 1 < 2 = size_`, because the growth
step from capacity 1 computes `(size_t)(1 * 1.5) = 1` and the trailing
construction then lands past the end of the single allocated slot. -/
theorem reachable_state_violates_invariant :
    Reachable (pushN [(1 : Int), 2]) ∧
      (pushN [(1 : Int), 2]).cap < size (pushN [(1 : Int), 2]) :=
  ⟨Reachable.push 2 (Reachable.push 1 Reachable.empty), by decide⟩

/-- C2: after N sequential appends the claim wants `length == N` and
`capacity ≥ N` with capacities 1, 2, 3 across three pushes; the code instead
leaves capacity stuck at 1 from the second push on, so after two pushes
`capacity = 1 < 2` and after three pushes `size() = 3` with `capacity = 1`. -/
theorem pushN_capacity_stuck_at_one :
    size (pushN [(1 : Int), 2]) = 2 ∧ (pushN [(1 : Int), 2]).cap = 1 ∧
      size (pushN [(1 : Int), 2, 3]) = 3 ∧ (pushN [(1 : Int), 2, 3]).cap = 1 := by
  decide

/-- C3: when `size_ == capacity_`, `emplace_back` first sets the capacity to
`max(1, floor(capacity_ * 1.5))`, then constructs the new trailing element
from the forwarded arguments and increments `size_` only after that
construction succeeds: on success the elements are the old ones followed by
the new value, and on a throwing construction the length (element list) is
unchanged. -/
theorem emplace_back_growth_spec (v : Vector α) (x : α) (h : size v = v.cap) :
    emplace_back v x none false =
      .ok { elems := v.elems ++ [x], cap := max 1 (3 * v.cap / 2), storage := true } ∧
    emplace_back v x none true =
      .error { elems := v.elems, cap := max 1 (3 * v.cap / 2), storage := true } := by
  constructor <;>
    simp [emplace_back, h, reserve_more_none, newCapacity_eq_claim]

/-- C3 witness: growing from the full one-element vector `[5]` at capacity 1. -/
theorem emplace_back_growth_spec_witness :
    emplace_back (Vector.mk [(5 : Int)] 1 true) 6 none false =
      .ok { elems := [5, 6], cap := max 1 (3 * 1 / 2), storage := true } ∧
    emplace_back (Vector.mk [(5 : Int)] 1 true) 6 none true =
      .error { elems := [5], cap := max 1 (3 * 1 / 2), storage := true } :=
  emplace_back_growth_spec (Vector.mk [(5 : Int)] 1 true) 6 rfl

/-- C4: if the transfer of the element at index `k` throws during a
reallocation, `reserve_more` propagates the failure with the container's
length, capacity and element values exactly as before the call, after having
destroyed precisely the `k` elements already constructed in the new storage
and deallocated the new block. -/
theorem reserve_more_strong_guarantee (v : Vector α) (new_capacity k : Nat)
    (hk : k < size v) :
    reserve_more v new_capacity (some k) =
      .error { state := v, destroyedNew := k, newReleased := true } := by
  have hcf : constructFrom v.elems 0 (some k) = .error k := by
    have h := constructFrom_fail v.elems 0 k hk
    rwa [Nat.zero_add] at h
  simp [reserve_more, hcf]

/-- C4 witness: transfer of element index 1 of `[1, 2, 3]` fails while growing
to capacity 4; the container keeps `[1, 2, 3]` at capacity 3. -/
theorem reserve_more_strong_guarantee_witness :
    reserve_more (Vector.mk [(1 : Int), 2, 3] 3 true) 4 (some 1) =
      .error { state := Vector.mk [(1 : Int), 2, 3] 3 true,
               destroyedNew := 1, newReleased := true } :=
  reserve_more_strong_guarantee (Vector.mk [(1 : Int), 2, 3] 3 true) 4 1 (by decide)

/-- C5: the claim wants the sized constructors to destroy the
already-constructed elements (indices `[0, i)`) before releasing storage when
constructing element `i` fails; in the code both catch blocks only deallocate
and rethrow, so for `n = 2` with a throw at `i = 1` the cleanup destroys
nothing (`destroyed = []`, not `[0, 1) = [0]`) although the block is released
and the failure re-signaled. -/
theorem ctorSized_failure_destroys_nothing :
    ctorSizedValue 2 (7 : Int) (some 1) =
      .error { destroyed := [], released := true } ∧
    ctorSized (α := Int) 2 (some 1) =
      .error { destroyed := [], released := true } ∧
    ({ destroyed := [], released := true } : CtorFailure).destroyed ≠ List.range 1 := by
  refine ⟨rfl, rfl, by decide⟩

/-- C6: `cend()` returns `ConstIterator(data_)`, the begin cursor, rather than
the one-past-the-end cursor `Iterator(data_ + size_)` returned by `end()`;
hence on every non-empty vector `cend() != end()` under the cross-flavor
pointer comparison. -/
theorem cend_equals_begin_not_end (v : Vector α) (h : size v ≠ 0) :
    cend v = cbegin v ∧ constNeIter (cend v) (endIter v) = true := by
  refine ⟨rfl, ?_⟩
  have h0 : (0 : Nat) ≠ size v := fun h0 => h h0.symm
  simpa [constNeIter, cend, endIter] using h0

/-- C6 witness: on the one-element vector `[3]`, `cend()` equals `cbegin()`
and differs from `end()`. -/
theorem cend_equals_begin_not_end_witness :
    cend (Vector.mk [(3 : Int)] 1 true) = cbegin (Vector.mk [(3 : Int)] 1 true) ∧
      constNeIter (cend (Vector.mk [(3 : Int)] 1 true))
        (endIter (Vector.mk [(3 : Int)] 1 true)) = true :=
  cend_equals_begin_not_end (Vector.mk [(3 : Int)] 1 true) (by decide)

/-- C7: move construction gives the new vector the source's former length,
capacity and element values, and leaves the source valid-but-empty with
`size_ = 0`, `capacity_ = 0` and a null `data_`. -/
theorem moveCtor_spec (v : Vector α) :
    (moveCtor v).1 = v ∧ (moveCtor v).2.elems = [] ∧
      (moveCtor v).2.cap = 0 ∧ (moveCtor v).2.storage = false :=
  ⟨rfl, rfl, rfl, rfl⟩

/-- C7 witness: moving out of `[1, 2]` at capacity 4. -/
theorem moveCtor_spec_witness :
    (moveCtor (Vector.mk [(1 : Int), 2] 4 true)).1 = Vector.mk [(1 : Int), 2] 4 true ∧
      (moveCtor (Vector.mk [(1 : Int), 2] 4 true)).2.elems = [] ∧
      (moveCtor (Vector.mk [(1 : Int), 2] 4 true)).2.cap = 0 ∧
      (moveCtor (Vector.mk [(1 : Int), 2] 4 true)).2.storage = false :=
  moveCtor_spec (Vector.mk [(1 : Int), 2] 4 true)

/-- C8: copy assignment builds the full copy before any exchange of internals:
assigning a vector to itself (no failure) preserves its length and element
values, and a copy assignment whose copy phase throws at element `k` leaves
the target's length, capacity and element values entirely unmodified. -/
theorem copyAssign_self_id_and_fail_frame (v target source : Vector α) (k : Nat)
    (hk : k < size source) :
    (∃ w, copyAssign v v none = .ok w ∧ w.elems = v.elems) ∧
      copyAssign target source (some k) = .error target := by
  constructor
  · by_cases h0 : size v = 0
    · refine ⟨{ elems := [], cap := 0, storage := false }, ?_, ?_⟩
      · simp [copyAssign, copyCtor, h0]
      · have hnil : v.elems = [] := List.length_eq_zero.mp h0
        simp [hnil]
    · exact ⟨{ elems := v.elems, cap := size v, storage := true },
        by simp [copyAssign, copyCtor, h0, constructFrom_none], rfl⟩
  · have h0 : ¬ size source = 0 := by omega
    have hcf : constructFrom source.elems 0 (some k) = .error k := by
      have h := constructFrom_fail source.elems 0 k hk
      rwa [Nat.zero_add] at h
    simp [copyAssign, copyCtor, h0, hcf]

/-- C8 witness: self-assignment of `[1, 2]` keeps its elements; assigning
`[4, 5]` into `[9]` with the copy of element 1 throwing leaves `[9]` at
capacity 1 untouched. -/
theorem copyAssign_self_id_and_fail_frame_witness :
    (∃ w, copyAssign (Vector.mk [(1 : Int), 2] 5 true)
        (Vector.mk [(1 : Int), 2] 5 true) none = .ok w ∧
        w.elems = (Vector.mk [(1 : Int), 2] 5 true).elems) ∧
      copyAssign (Vector.mk [(9 : Int)] 1 true) (Vector.mk [(4 : Int), 5] 2 true)
        (some 1) = .error (Vector.mk [(9 : Int)] 1 true) :=
  copyAssign_self_id_and_fail_frame (Vector.mk [(1 : Int), 2] 5 true)
    (Vector.mk [(9 : Int)] 1 true) (Vector.mk [(4 : Int), 5] 2 true) 1 (by decide)

/-- C9: on a vector satisfying the representation invariant
(`size_ ≤ capacity_`, and `data_` null exactly when `capacity_ = 0`),
`shrink_to_fit` (no-throw run) returns with `capacity_ == size_`, the storage
released exactly when `size_ == 0`, and the length and element values
unchanged. -/
theorem shrink_to_fit_spec (v : Vector α) (hlen : size v ≤ v.cap)
    (hsto : v.storage = false ↔ v.cap = 0) :
    ∃ w, shrink_to_fit v none = .ok w ∧ w.elems = v.elems ∧ w.cap = size v ∧
      (w.storage = false ↔ size v = 0) := by
  unfold shrink_to_fit
  by_cases hlt : size v < v.cap
  · rw [if_pos hlt]
    by_cases h0 : size v = 0
    · rw [if_pos h0]
      exact ⟨_, rfl, rfl, h0.symm, by simp [h0]⟩
    · rw [if_neg h0, reserve_more_none]
      exact ⟨_, rfl, rfl, rfl, by simp [h0]⟩
  · rw [if_neg hlt]
    have hcap : v.cap = size v := by omega
    exact ⟨v, rfl, rfl, hcap, by rw [hsto, hcap]⟩

/-- C9 witness: shrinking `[1, 2]` at capacity 5 yields capacity 2 with the
same elements. -/
theorem shrink_to_fit_spec_witness :
    ∃ w, shrink_to_fit (Vector.mk [(1 : Int), 2] 5 true) none = .ok w ∧
      w.elems = (Vector.mk [(1 : Int), 2] 5 true).elems ∧
      w.cap = size (Vector.mk [(1 : Int), 2] 5 true) ∧
      (w.storage = false ↔ size (Vector.mk [(1 : Int), 2] 5 true) = 0) :=
  shrink_to_fit_spec (Vector.mk [(1 : Int), 2] 5 true) (by decide) (by decide)

/-- C10: calling `resize(count)` or `resize(count, value)` with `count` equal
to the current length takes neither branch of the body: the state (length,
capacity, elements, storage) is returned unchanged and no `destroy` and no
element `construct` call is performed. -/
theorem resize_to_same_length_noop [Inhabited α] (v : Vector α) (x : α) :
    resize v (size v) = { state := v, destroyed := 0, constructed := 0 } ∧
      resizeFill v (size v) x = { state := v, destroyed := 0, constructed := 0 } := by
  constructor <;> simp [resize, resizeFill]

/-- C10 witness: `resize(2)` and `resize(2, 42)` on `[1, 2]` at capacity 5. -/
theorem resize_to_same_length_noop_witness :
    resize (Vector.mk [(1 : Int), 2] 5 true) (size (Vector.mk [(1 : Int), 2] 5 true)) =
      { state := Vector.mk [(1 : Int), 2] 5 true, destroyed := 0, constructed := 0 } ∧
    resizeFill (Vector.mk [(1 : Int), 2] 5 true)
        (size (Vector.mk [(1 : Int), 2] 5 true)) 42 =
      { state := Vector.mk [(1 : Int), 2] 5 true, destroyed := 0, constructed := 0 } :=
  resize_to_same_length_noop (Vector.mk [(1 : Int), 2] 5 true) 42

end CVec
